import Mathlib

/-!
Shallow embedding of `src/Challenge15_Completed_Lambda_Function.py`, an AWS
Lex dialog handler for the intent "recommendPortfolio", together with proofs
checking the natural-language specification against the code.

Modelling decisions, applied uniformly:
* Python slot values are strings or `None`; absence is `Option String`.
* `parse_int` returns `int(n)` on success and `float("nan")` on `ValueError`.
  The not-a-number sentinel is modelled as `none : Option Int`; Python's IEEE
  comparison semantics (every ordered comparison with nan is `False`) is
  modelled by the `pyLe` / `pyGe` / `pyLt` functions below.
* Dictionaries with fixed literal keys become structures; the dynamically
  keyed slot-clearing write `slots[violated_slot] = None` becomes `clear_slot`,
  a setter keyed by the slot-name string.
* A raised Python exception is modelled as the `.error` branch of
  `Except String`; normal returns are `.ok`.
-/

namespace Challenge15

/-- Session attributes are an opaque string-keyed mapping; the code never
reads into them, only passes them through. -/
def SessionAttrs : Type := List (String × String)

instance : DecidableEq SessionAttrs := by
  unfold SessionAttrs
  infer_instance

/-- A Lex message dict `{"contentType": ..., "content": ...}`. -/
structure LexMessage where
  contentType : String
  content : String
deriving DecidableEq, Repr

/-- The four slots of the `currentIntent.slots` mapping; each value is a
string or absent (`None`). -/
structure Slots where
  firstName : Option String
  age : Option String
  investmentAmount : Option String
  riskLevel : Option String
deriving DecidableEq, Repr

/-- The `currentIntent` sub-dict of the request. -/
structure CurrentIntent where
  name : String
  slots : Slots
deriving DecidableEq, Repr

/-- The incoming intent request (the Lambda `event`). -/
structure IntentRequest where
  invocationSource : String
  currentIntent : CurrentIntent
  sessionAttributes : SessionAttrs
deriving DecidableEq

/-- The `dialogAction` part of a response: one of the three literal shapes
built by `elicit_slot`, `delegate` and `close`. -/
inductive DialogAction where
  | elicitSlotAction (intentName : String) (slots : Slots)
      (slotToElicit : Option String) (message : Option LexMessage)
  | delegateAction (slots : Slots)
  | closeAction (fulfillmentState : String) (message : LexMessage)
deriving DecidableEq, Repr

/-- A full Lex response: session attributes plus a dialog action. -/
structure LexResponse where
  sessionAttributes : SessionAttrs
  dialogAction : DialogAction
deriving DecidableEq

/-- Python whitespace as stripped by `int(str)`. -/
def isAsciiWhitespace (c : Char) : Bool :=
  c = ' ' || c = '\t' || c = '\n' || c = '\x0b' || c = '\x0c' || c = '\r'

/-- Strip leading and trailing whitespace from a character list, as Python
`int(str)` does before parsing. -/
def stripChars (cs : List Char) : List Char :=
  ((cs.dropWhile isAsciiWhitespace).reverse.dropWhile isAsciiWhitespace).reverse

/-- Python `str.lower()`, character-wise (the source only compares against
ASCII keywords, for which per-character lowering is exact). -/
def strLower (s : String) : String := ⟨s.data.map Char.toLower⟩

/-- Decimal digit run to a natural number; `none` on the empty run or on any
non-digit character. Helper for `parse_int`. -/
def decimalDigits? (cs : List Char) : Option Nat :=
  if cs = [] then none
  else if cs.all Char.isDigit then
    some (cs.foldl (fun a c => a * 10 + (c.toNat - 48)) 0)
  else none

/-- Embeds `parse_int` (source lines 6-13): Python `int(n)` on a string
accepts optional surrounding whitespace and an optional sign before a
nonempty digit run; on `ValueError` the source returns `float("nan")`,
modelled here as `none`. (Underscore-grouped literals are not modelled.) -/
def parse_int (n : String) : Option Int :=
  match stripChars n.data with
  | [] => none
  | c :: rest =>
    if c = '-' then (decimalDigits? rest).map (fun d => -(d : Int))
    else if c = '+' then (decimalDigits? rest).map (fun d => (d : Int))
    else (decimalDigits? (c :: rest)).map (fun d => (d : Int))

/-- Python `x <= y` where `x` may be the nan sentinel: any ordered comparison
against nan is `False`. -/
def pyLe (x : Option Int) (y : Int) : Bool :=
  match x with
  | some v => v ≤ y
  | none => false

/-- Python `x >= y` with the nan sentinel: `False` when `x` is nan. -/
def pyGe (x : Option Int) (y : Int) : Bool :=
  match x with
  | some v => v ≥ y
  | none => false

/-- Python `x < y` with the nan sentinel: `False` when `x` is nan. -/
def pyLt (x : Option Int) (y : Int) : Bool :=
  match x with
  | some v => v < y
  | none => false

/-- The validation verdict dict built by `build_validation_result`; a missing
`"message"` key is `none`. -/
structure ValidationResult where
  isValid : Bool
  violatedSlot : Option String
  message : Option LexMessage
deriving DecidableEq, Repr

/-- Embeds `build_validation_result` (source lines 16-27). -/
def build_validation_result (is_valid : Bool) (violated_slot : Option String)
    (message_content : Option String) : ValidationResult :=
  match message_content with
  | none => { isValid := is_valid, violatedSlot := violated_slot, message := none }
  | some c =>
    { isValid := is_valid, violatedSlot := violated_slot,
      message := some { contentType := "PlainText", content := c } }

/-- The fixed age error message (source lines 91-92; Python juxtaposes the
two string literals). -/
def age_error_message : String :=
  "Your age should be greater than zero and less than 65. Please provide a valid age."

/-- The fixed investment-amount error message (source lines 102-103). -/
def amount_error_message : String :=
  "The minimum investment amount is $5000. Please provide a valid investment amount."

/-- The fixed risk-level error message (source lines 113-114). -/
def risk_error_message : String :=
  "Your risk level should be one of the following options: none, low, medium, high. Please provide a valid risk level."

/-- The risk-level check of `validate_data` (source lines 106-115), reached
after the age and amount checks did not return. -/
def validate_risk_step (risk_level : Option String) : ValidationResult :=
  match risk_level with
  | some r =>
    if ¬ (["none", "low", "medium", "high"].contains (strLower r)) then
      build_validation_result false (some "riskLevel") (some risk_error_message)
    else
      build_validation_result true none none
  | none => build_validation_result true none none

/-- The investment-amount check of `validate_data` (source lines 95-104),
reached after the age check did not return; falls through to the risk check. -/
def validate_amount_step (investment_amount risk_level : Option String) : ValidationResult :=
  match investment_amount with
  | some m =>
    if pyLt (parse_int m) 5000 then
      build_validation_result false (some "investmentAmount") (some amount_error_message)
    else
      validate_risk_step risk_level
  | none => validate_risk_step risk_level

/-- Embeds `validate_data` (source lines 83-117): the three early-return
checks in source order, written as a fall-through chain. The unused
`intent_request` parameter of the source is dropped. -/
def validate_data (age investment_amount risk_level : Option String) : ValidationResult :=
  match age with
  | some a =>
    if pyLe (parse_int a) 0 || pyGe (parse_int a) 65 then
      build_validation_result false (some "age") (some age_error_message)
    else
      validate_amount_step investment_amount risk_level
  | none => validate_amount_step investment_amount risk_level

/-- The boolean condition of the age early return in `validate_data` (source
lines 85-87): present and `parse_int(age) <= 0 or parse_int(age) >= 65`
under Python nan comparison semantics. -/
def age_check_fails (age : Option String) : Bool :=
  match age with
  | some a => pyLe (parse_int a) 0 || pyGe (parse_int a) 65
  | none => false

/-- The boolean condition of the amount early return in `validate_data`
(source lines 96-98). -/
def amount_check_fails (investment_amount : Option String) : Bool :=
  match investment_amount with
  | some m => pyLt (parse_int m) 5000
  | none => false

/-- Embeds `get_rec` (source lines 119-131): the static, total
risk-to-allocation table with its invalid-input fallback. -/
def get_rec (risk_level : String) : String :=
  if strLower risk_level = "none" then
    "100% bonds (AGG), 0% equities (SPY)"
  else if strLower risk_level = "low" then
    "60% bonds (AGG), 40% equities (SPY)"
  else if strLower risk_level = "medium" then
    "40% bonds (AGG), 60% equities (SPY)"
  else if strLower risk_level = "high" then
    "20% bonds (AGG), 80% equities (SPY)"
  else
    "Invalid Risk Level"

/-- Embeds `get_slots` (source lines 31-35). -/
def get_slots (intent_request : IntentRequest) : Slots :=
  intent_request.currentIntent.slots

/-- Embeds `elicit_slot` (source lines 38-52). -/
def elicit_slot (session_attributes : SessionAttrs) (intent_name : String)
    (slots : Slots) (slot_to_elicit : Option String)
    (message : Option LexMessage) : LexResponse :=
  { sessionAttributes := session_attributes,
    dialogAction := .elicitSlotAction intent_name slots slot_to_elicit message }

/-- Embeds `delegate` (source lines 55-63). -/
def delegate (session_attributes : SessionAttrs) (slots : Slots) : LexResponse :=
  { sessionAttributes := session_attributes,
    dialogAction := .delegateAction slots }

/-- Embeds `close` (source lines 66-80). -/
def close (session_attributes : SessionAttrs) (fulfillment_state : String)
    (message : LexMessage) : LexResponse :=
  { sessionAttributes := session_attributes,
    dialogAction := .closeAction fulfillment_state message }

/-- The in-place write `slots[violated_slot] = None` of source line 155,
as a setter keyed by the slot-name string. `validate_data` only ever
produces the three checked names; any other key (unreachable from the
handler) leaves the structure-modelled mapping unchanged. -/
def clear_slot (slots : Slots) (name : Option String) : Slots :=
  match name with
  | some "firstName" => { slots with firstName := none }
  | some "age" => { slots with age := none }
  | some "investmentAmount" => { slots with investmentAmount := none }
  | some "riskLevel" => { slots with riskLevel := none }
  | _ => slots

/-- Python `str.format` on a slot value: `None` prints as the string
`"None"`. -/
def pyFormatSlot (s : Option String) : String :=
  match s with
  | some v => v
  | none => "None"

/-- Embeds `recommend_portfolio` (source lines 136-179). The non-dialog
branch calls `get_rec(risk_level)`; when `riskLevel` is absent, Python
raises `AttributeError` inside `get_rec` at `risk_level.lower()`, modelled
as the `.error` branch. -/
def recommend_portfolio (intent_request : IntentRequest) : Except String LexResponse :=
  let first_name := (get_slots intent_request).firstName
  let age := (get_slots intent_request).age
  let investment_amount := (get_slots intent_request).investmentAmount
  let risk_level := (get_slots intent_request).riskLevel
  let source := intent_request.invocationSource
  if source = "DialogCodeHook" then
    let slots := get_slots intent_request
    let validation_result := validate_data age investment_amount risk_level
    if ¬ validation_result.isValid then
      let slots := clear_slot slots validation_result.violatedSlot
      .ok (elicit_slot intent_request.sessionAttributes
        intent_request.currentIntent.name slots
        validation_result.violatedSlot validation_result.message)
    else
      let output_session_attributes := intent_request.sessionAttributes
      .ok (delegate output_session_attributes (get_slots intent_request))
  else
    match risk_level with
    | none => .error "AttributeError: NoneType object has no attribute lower"
    | some rl =>
      let portfolio_recommendation := get_rec rl
      .ok (close intent_request.sessionAttributes "Fulfilled"
        { contentType := "PlainText",
          content := "Thank you, " ++ pyFormatSlot first_name ++
            ", you should allocate your funds like so: " ++ portfolio_recommendation })

/-- Embeds `dispatch` (source lines 182-193): any intent name other than
`"recommendPortfolio"` raises, modelled as `.error`. -/
def dispatch (intent_request : IntentRequest) : Except String LexResponse :=
  let intent_name := intent_request.currentIntent.name
  if intent_name = "recommendPortfolio" then
    recommend_portfolio intent_request
  else
    .error ("Intent with name " ++ intent_name ++ " not supported")

/-- Embeds `lambda_handler` (source lines 198-204). -/
def lambda_handler (event : IntentRequest) : Except String LexResponse :=
  dispatch event

/-! ### Helper lemmas shared by the claim theorems -/

/-- When the age early return does not fire, `validate_data` continues with
the amount check. -/
lemma validate_data_age_skip (age inv risk : Option String)
    (h : age_check_fails age = false) :
    validate_data age inv risk = validate_amount_step inv risk := by
  cases age with
  | none => rfl
  | some a =>
    simp only [age_check_fails] at h
    simp [validate_data, h]

/-- When the age early return fires, `validate_data` returns the age verdict
without looking at the later fields. -/
lemma validate_data_age_fire (age inv risk : Option String)
    (h : age_check_fails age = true) :
    validate_data age inv risk =
      build_validation_result false (some "age") (some age_error_message) := by
  cases age with
  | none => simp [age_check_fails] at h
  | some a =>
    simp only [age_check_fails] at h
    simp [validate_data, h]

/-- When the amount early return does not fire, `validate_data` continues
with the risk check. -/
lemma validate_amount_step_skip (inv risk : Option String)
    (h : amount_check_fails inv = false) :
    validate_amount_step inv risk = validate_risk_step risk := by
  cases inv with
  | none => rfl
  | some m =>
    simp only [amount_check_fails] at h
    simp [validate_amount_step, h]

/-- When the amount early return fires, `validate_amount_step` returns the
amount verdict without looking at the risk level. -/
lemma validate_amount_step_fire (inv risk : Option String)
    (h : amount_check_fails inv = true) :
    validate_amount_step inv risk =
      build_validation_result false (some "investmentAmount") (some amount_error_message) := by
  cases inv with
  | none => simp [amount_check_fails] at h
  | some m =>
    simp only [amount_check_fails] at h
    simp [validate_amount_step, h]

/-- An absent or case-insensitively recognized risk level passes the risk
check. -/
lemma validate_risk_step_ok (risk : Option String)
    (h : risk = none ∨ ∃ s, risk = some s ∧
      (strLower s = "none" ∨ strLower s = "low" ∨
       strLower s = "medium" ∨ strLower s = "high")) :
    validate_risk_step risk = build_validation_result true none none := by
  rcases h with h | ⟨s, rfl, h⟩
  · rw [h]; rfl
  · rcases h with h | h | h | h <;> simp [validate_risk_step, h]

/-- Whatever the amount and risk inputs, the continuation after a passed age
check never blames the `"age"` field. -/
lemma validate_amount_step_not_age (inv risk : Option String) :
    (validate_amount_step inv risk).violatedSlot ≠ some "age" := by
  cases inv with
  | none =>
    cases risk with
    | none => simp [validate_amount_step, validate_risk_step, build_validation_result]
    | some r =>
      simp only [validate_amount_step, validate_risk_step]
      split <;> simp [build_validation_result]
  | some m =>
    simp only [validate_amount_step]
    split
    · simp [build_validation_result]
    · cases risk with
      | none => simp [validate_risk_step, build_validation_result]
      | some r =>
        simp only [validate_risk_step]
        split <;> simp [build_validation_result]

/-! ### Claim C1 -/

/-- Claim C1 as stated is false on the code: the age string `"abc"` does not
parse as an integer, yet `validate_data` accepts it (the nan sentinel fails
both bound comparisons, so the failure condition is false) instead of
returning invalid with violated field `"age"`. -/
theorem unparseable_age_accepted_cex :
    parse_int "abc" = none ∧
    validate_data (some "abc") none none =
      { isValid := true, violatedSlot := none, message := none } := by
  constructor <;> rfl

/-- Claim C1, amended: for every age input string that does not parse as an
integer, `validate_data` behaves exactly as if the age slot were absent —
the age bounds check passes (both nan comparisons are false), so the verdict
never names the field `"age"`. -/
theorem validate_unparseable_age_skipped (s : String) (inv risk : Option String)
    (h : parse_int s = none) :
    validate_data (some s) inv risk = validate_data none inv risk ∧
    (validate_data (some s) inv risk).violatedSlot ≠ some "age" := by
  have hfalse : age_check_fails (some s) = false := by
    simp [age_check_fails, h, pyLe, pyGe]
  have h1 := validate_data_age_skip (some s) inv risk hfalse
  have h2 := validate_data_age_skip none inv risk rfl
  refine ⟨h1.trans h2.symm, ?_⟩
  rw [h1]
  exact validate_amount_step_not_age inv risk

/-- Witness for the amended claim C1 at the concrete age string `"abc"`. -/
theorem validate_unparseable_age_skipped_w :
    parse_int "abc" = none ∧
    (validate_data (some "abc") none none = validate_data none none none ∧
     (validate_data (some "abc") none none).violatedSlot ≠ some "age") :=
  ⟨rfl, validate_unparseable_age_skipped "abc" none none rfl⟩

/-! ### Claim C2 -/

/-- Claim C2 as stated is false on the code: the investment amount `"abc"`
does not parse as an integer (age absent), yet `validate_data` accepts it
(nan fails the `< 5000` comparison, so the failure condition is false)
instead of returning invalid with field `"investmentAmount"`. -/
theorem unparseable_amount_accepted_cex :
    parse_int "abc" = none ∧
    validate_data none (some "abc") none =
      { isValid := true, violatedSlot := none, message := none } := by
  constructor <;> rfl

/-- Claim C2, amended: with age absent or passing, a present investment
amount that parses to an integer below 5000 makes `validate_data` return
invalid with field `"investmentAmount"` and the fixed message; a present
amount that does not parse is accepted, behaving exactly as an absent
amount (no crash, no distinct error path, and no validation failure). -/
theorem validate_amount_check (age risk : Option String) (s : String)
    (hage : age_check_fails age = false) :
    (∀ i : Int, parse_int s = some i → i < 5000 →
      validate_data age (some s) risk =
        build_validation_result false (some "investmentAmount") (some amount_error_message)) ∧
    (parse_int s = none →
      validate_data age (some s) risk = validate_data age none risk) := by
  constructor
  · intro i hp hi
    rw [validate_data_age_skip age (some s) risk hage]
    apply validate_amount_step_fire
    simp [amount_check_fails, pyLt, hp, hi]
  · intro hp
    rw [validate_data_age_skip age (some s) risk hage,
        validate_data_age_skip age none risk hage]
    have h1 : amount_check_fails (some s) = false := by
      simp [amount_check_fails, pyLt, hp]
    rw [validate_amount_step_skip (some s) risk h1,
        validate_amount_step_skip none risk rfl]

/-- Witness for the amended claim C2 at the concrete amount string
`"100"`. -/
theorem validate_amount_check_w :
    age_check_fails none = false ∧ parse_int "100" = some 100 ∧ (100 : Int) < 5000 ∧
    validate_data none (some "100") none =
      build_validation_result false (some "investmentAmount") (some amount_error_message) :=
  ⟨rfl, rfl, by decide,
    (validate_amount_check none none "100" rfl).1 100 rfl (by decide)⟩

/-! ### Claim C3 -/

/-- Claim C3: whenever the age is absent or parses to an integer strictly
between 0 and 65, the investment amount is absent or parses to an integer
at least 5000, and the risk level is absent or case-insensitively one of
none, low, medium, high, `validate_data` returns valid with no violated
field and no message. -/
theorem validate_all_valid (age inv risk : Option String)
    (hage : age = none ∨ ∃ s a, age = some s ∧ parse_int s = some a ∧ 0 < a ∧ a < 65)
    (hinv : inv = none ∨ ∃ s i, inv = some s ∧ parse_int s = some i ∧ 5000 ≤ i)
    (hrisk : risk = none ∨ ∃ s, risk = some s ∧
      (strLower s = "none" ∨ strLower s = "low" ∨
       strLower s = "medium" ∨ strLower s = "high")) :
    validate_data age inv risk =
      { isValid := true, violatedSlot := none, message := none } := by
  have h1 : age_check_fails age = false := by
    rcases hage with rfl | ⟨s, a, rfl, hp, h0, h65⟩
    · rfl
    · simp only [age_check_fails, pyLe, pyGe, hp]
      simp
      omega
  have h2 : amount_check_fails inv = false := by
    rcases hinv with rfl | ⟨s, i, rfl, hp, hge⟩
    · rfl
    · simp only [amount_check_fails, pyLt, hp]
      simp
      omega
  rw [validate_data_age_skip age inv risk h1,
      validate_amount_step_skip inv risk h2,
      validate_risk_step_ok risk hrisk]
  rfl

/-- Witness for claim C3 at the concrete triple age `"10"`, amount
`"6000"`, risk `"LoW"`. -/
theorem validate_all_valid_w :
    parse_int "10" = some 10 ∧ parse_int "6000" = some 6000 ∧
    strLower "LoW" = "low" ∧
    validate_data (some "10") (some "6000") (some "LoW") =
      { isValid := true, violatedSlot := none, message := none } :=
  ⟨rfl, rfl, rfl,
    validate_all_valid (some "10") (some "6000") (some "LoW")
      (Or.inr ⟨"10", 10, rfl, rfl, by decide, by decide⟩)
      (Or.inr ⟨"6000", 6000, rfl, rfl, by decide⟩)
      (Or.inr ⟨"LoW", rfl, Or.inr (Or.inl rfl)⟩)⟩

/-! ### Claim C4 -/

/-- Claim C4: validation checks fields in the fixed order age, then
investment amount, then risk level, and the first failing check returns its
verdict independently of every later field — if the age check fails, the
verdict names `"age"` whatever the amount and risk inputs are (in
particular when the risk level is also invalid), and if the age check
passes while the amount check fails, the verdict names
`"investmentAmount"` whatever the risk input is. -/
theorem validate_order_short_circuit (age inv risk : Option String) :
    (age_check_fails age = true →
      validate_data age inv risk =
        build_validation_result false (some "age") (some age_error_message)) ∧
    (age_check_fails age = false → amount_check_fails inv = true →
      validate_data age inv risk =
        build_validation_result false (some "investmentAmount") (some amount_error_message)) :=
  ⟨fun h => validate_data_age_fire age inv risk h,
   fun h1 h2 => (validate_data_age_skip age inv risk h1).trans
     (validate_amount_step_fire inv risk h2)⟩

/-- Witness for claim C4: with age `"70"` (out of range) and risk level
`"extreme"` (invalid) both bad, the verdict names `"age"`. -/
theorem validate_order_short_circuit_w :
    age_check_fails (some "70") = true ∧
    validate_data (some "70") (some "6000") (some "extreme") =
      build_validation_result false (some "age") (some age_error_message) :=
  ⟨by decide,
    (validate_order_short_circuit (some "70") (some "6000") (some "extreme")).1 (by decide)⟩

/-! ### Claim C5 -/

/-- Claim C5: on the dialog (intermediate) phase, when validation fails on
slot `vs` with message `m`, the handler clears slot `vs` in the request's
slot mapping and returns an elicit response naming `vs`, carrying the
mutated full mapping, the verdict's message, and the request's session
attributes; when validation passes it returns a delegate response with the
unmutated slots and the same session attributes. -/
theorem recommend_portfolio_dialog_phase (req : IntentRequest) (vs : String)
    (m : Option LexMessage) (hsrc : req.invocationSource = "DialogCodeHook") :
    (validate_data (get_slots req).age (get_slots req).investmentAmount
        (get_slots req).riskLevel =
        { isValid := false, violatedSlot := some vs, message := m } →
      recommend_portfolio req = .ok
        { sessionAttributes := req.sessionAttributes,
          dialogAction := .elicitSlotAction req.currentIntent.name
            (clear_slot (get_slots req) (some vs)) (some vs) m }) ∧
    ((validate_data (get_slots req).age (get_slots req).investmentAmount
        (get_slots req).riskLevel).isValid = true →
      recommend_portfolio req = .ok
        { sessionAttributes := req.sessionAttributes,
          dialogAction := .delegateAction (get_slots req) }) := by
  constructor
  · intro h
    simp [recommend_portfolio, hsrc, h, elicit_slot]
  · intro h
    simp [recommend_portfolio, hsrc, h, delegate]

/-- Witness for claim C5 (spec scenario B): intermediate phase with age
`"70"` elicits `"age"` with the age slot cleared; the same request with age
`"30"` delegates with untouched slots. -/
theorem recommend_portfolio_dialog_phase_w :
    validate_data (some "70") (some "6000") (some "low") =
      { isValid := false, violatedSlot := some "age",
        message := some { contentType := "PlainText", content := age_error_message } } ∧
    recommend_portfolio
      { invocationSource := "DialogCodeHook",
        currentIntent :=
          { name := "recommendPortfolio",
            slots := { firstName := some "Jo", age := some "70",
                       investmentAmount := some "6000", riskLevel := some "low" } },
        sessionAttributes := [("turn", "2")] } = .ok
      { sessionAttributes := [("turn", "2")],
        dialogAction := .elicitSlotAction "recommendPortfolio"
          { firstName := some "Jo", age := none,
            investmentAmount := some "6000", riskLevel := some "low" }
          (some "age")
          (some { contentType := "PlainText", content := age_error_message }) } :=
  ⟨rfl,
    (recommend_portfolio_dialog_phase
      { invocationSource := "DialogCodeHook",
        currentIntent :=
          { name := "recommendPortfolio",
            slots := { firstName := some "Jo", age := some "70",
                       investmentAmount := some "6000", riskLevel := some "low" } },
        sessionAttributes := [("turn", "2")] }
      "age"
      (some { contentType := "PlainText", content := age_error_message })
      rfl).1 rfl⟩

/-! ### Claim C6 -/

/-- Claim C6: the risk-to-allocation lookup is total and exact —
case-insensitively, none, low, medium and high map to their fixed
allocation strings, and every other input yields the literal string
`"Invalid Risk Level"` rather than failing. -/
theorem get_rec_table (s : String) :
    (strLower s = "none" → get_rec s = "100% bonds (AGG), 0% equities (SPY)") ∧
    (strLower s = "low" → get_rec s = "60% bonds (AGG), 40% equities (SPY)") ∧
    (strLower s = "medium" → get_rec s = "40% bonds (AGG), 60% equities (SPY)") ∧
    (strLower s = "high" → get_rec s = "20% bonds (AGG), 80% equities (SPY)") ∧
    (strLower s ≠ "none" → strLower s ≠ "low" → strLower s ≠ "medium" →
      strLower s ≠ "high" → get_rec s = "Invalid Risk Level") := by
  refine ⟨fun h => ?_, fun h => ?_, fun h => ?_, fun h => ?_, fun h1 h2 h3 h4 => ?_⟩
  · simp [get_rec, h]
  · simp [get_rec, h]
  · simp [get_rec, h]
  · simp [get_rec, h]
  · simp [get_rec, h1, h2, h3, h4]

/-- Witness for claim C6 at the concrete inputs `"MEDIUM"` (recognized,
case-insensitively) and `"extreme"` (fallback). -/
theorem get_rec_table_w :
    strLower "MEDIUM" = "medium" ∧
    get_rec "MEDIUM" = "40% bonds (AGG), 60% equities (SPY)" ∧
    get_rec "extreme" = "Invalid Risk Level" :=
  ⟨rfl, (get_rec_table "MEDIUM").2.2.1 rfl,
    (get_rec_table "extreme").2.2.2.2 (by decide) (by decide) (by decide) (by decide)⟩

/-! ### Claim C7 -/

/-- Claim C7 as stated is false on the code: this request carries one of
the two stage markers (`"FulfillmentCodeHook"`), yet the handler raises
(`AttributeError` on the absent risk level) and produces none of the three
response variants, contradicting that exactly one variant is produced per
invocation. -/
theorem phase_variant_missing_cex :
    recommend_portfolio
      { invocationSource := "FulfillmentCodeHook",
        currentIntent :=
          { name := "recommendPortfolio",
            slots := { firstName := some "Jo", age := some "30",
                       investmentAmount := some "6000", riskLevel := none } },
        sessionAttributes := [] } =
      Except.error "AttributeError: NoneType object has no attribute lower" := rfl

/-- Claim C7, amended: for requests carrying one of the two stage markers,
the intermediate phase always returns exactly one response, and it is an
elicit or a delegate (never a close); on the final phase every returned
response is a close with fulfillment state `"Fulfilled"` and a message
embedding the first name and the allocation string — but when the risk
level is absent the final phase raises instead of producing any variant,
so at most one (not always exactly one) variant is produced per
invocation. -/
theorem recommend_portfolio_phase_variants (req : IntentRequest)
    (_hsrc : req.invocationSource = "DialogCodeHook" ∨
             req.invocationSource = "FulfillmentCodeHook") :
    (req.invocationSource = "DialogCodeHook" →
      ∃ resp, recommend_portfolio req = Except.ok resp ∧
        ((∃ n sl se m, resp.dialogAction = DialogAction.elicitSlotAction n sl se m) ∨
         ∃ sl, resp.dialogAction = DialogAction.delegateAction sl)) ∧
    (req.invocationSource = "FulfillmentCodeHook" →
      ∀ resp, recommend_portfolio req = Except.ok resp →
        ∃ rl, (get_slots req).riskLevel = some rl ∧
          resp = close req.sessionAttributes "Fulfilled"
            { contentType := "PlainText",
              content := "Thank you, " ++ pyFormatSlot (get_slots req).firstName ++
                ", you should allocate your funds like so: " ++ get_rec rl }) := by
  constructor
  · intro h
    by_cases hv : (validate_data (get_slots req).age (get_slots req).investmentAmount
        (get_slots req).riskLevel).isValid = true
    · refine ⟨delegate req.sessionAttributes (get_slots req), ?_,
        Or.inr ⟨get_slots req, rfl⟩⟩
      simp [recommend_portfolio, h, hv, delegate]
    · refine ⟨elicit_slot req.sessionAttributes req.currentIntent.name
        (clear_slot (get_slots req)
          (validate_data (get_slots req).age (get_slots req).investmentAmount
            (get_slots req).riskLevel).violatedSlot)
        (validate_data (get_slots req).age (get_slots req).investmentAmount
          (get_slots req).riskLevel).violatedSlot
        (validate_data (get_slots req).age (get_slots req).investmentAmount
          (get_slots req).riskLevel).message, ?_,
        Or.inl ⟨_, _, _, _, rfl⟩⟩
      simp [recommend_portfolio, h, hv, elicit_slot]
  · intro h resp hre
    simp only [recommend_portfolio, h] at hre
    rw [if_neg (by decide)] at hre
    cases hrl : (get_slots req).riskLevel with
    | none =>
      rw [hrl] at hre
      simp at hre
    | some rl =>
      rw [hrl] at hre
      rw [Except.ok.injEq] at hre
      exact ⟨rl, rfl, hre.symm⟩

/-- Witness for the amended claim C7: a concrete intermediate-phase request
yields exactly one response, an elicit or a delegate. -/
theorem recommend_portfolio_phase_variants_w :
    ∃ resp, recommend_portfolio
      { invocationSource := "DialogCodeHook",
        currentIntent :=
          { name := "recommendPortfolio",
            slots := { firstName := some "Jo", age := some "10",
                       investmentAmount := some "6000", riskLevel := some "low" } },
        sessionAttributes := [] } = Except.ok resp ∧
      ((∃ n sl se m, resp.dialogAction = DialogAction.elicitSlotAction n sl se m) ∨
       ∃ sl, resp.dialogAction = DialogAction.delegateAction sl) :=
  (recommend_portfolio_phase_variants
    { invocationSource := "DialogCodeHook",
      currentIntent :=
        { name := "recommendPortfolio",
          slots := { firstName := some "Jo", age := some "10",
                     investmentAmount := some "6000", riskLevel := some "low" } },
      sessionAttributes := [] } (Or.inl rfl)).1 rfl

/-! ### Claim C8 -/

/-- Any response returned by `recommend_portfolio` carries the request's
session attributes unchanged, in all three variants. -/
lemma recommend_portfolio_session_attrs (req : IntentRequest) (resp : LexResponse)
    (h : recommend_portfolio req = Except.ok resp) :
    resp.sessionAttributes = req.sessionAttributes := by
  simp only [recommend_portfolio] at h
  split at h
  · split at h
    · rw [Except.ok.injEq] at h
      rw [← h]
      rfl
    · rw [Except.ok.injEq] at h
      rw [← h]
      rfl
  · split at h
    · simp at h
    · rw [Except.ok.injEq] at h
      rw [← h]
      rfl

/-- Claim C8: every response the dispatcher returns (hence every response
of the supported intent, in all three variants) has a sessionAttributes
mapping equal to the request's — never synthesized, altered, or dropped. -/
theorem session_attributes_passthrough (req : IntentRequest) (resp : LexResponse)
    (h : dispatch req = Except.ok resp) :
    resp.sessionAttributes = req.sessionAttributes := by
  simp only [dispatch] at h
  split at h
  · exact recommend_portfolio_session_attrs req resp h
  · simp at h

/-- Witness for claim C8 on a concrete delegating request. -/
theorem session_attributes_passthrough_w :
    dispatch
      { invocationSource := "DialogCodeHook",
        currentIntent :=
          { name := "recommendPortfolio",
            slots := { firstName := some "Jo", age := some "10",
                       investmentAmount := some "6000", riskLevel := some "low" } },
        sessionAttributes := [("k", "v")] } =
      Except.ok
        { sessionAttributes := [("k", "v")],
          dialogAction := DialogAction.delegateAction
            { firstName := some "Jo", age := some "10",
              investmentAmount := some "6000", riskLevel := some "low" } } ∧
    ([("k", "v")] : SessionAttrs) = [("k", "v")] :=
  ⟨rfl,
    session_attributes_passthrough
      { invocationSource := "DialogCodeHook",
        currentIntent :=
          { name := "recommendPortfolio",
            slots := { firstName := some "Jo", age := some "10",
                       investmentAmount := some "6000", riskLevel := some "low" } },
        sessionAttributes := [("k", "v")] }
      { sessionAttributes := [("k", "v")],
        dialogAction := DialogAction.delegateAction
          { firstName := some "Jo", age := some "10",
            investmentAmount := some "6000", riskLevel := some "low" } }
      rfl⟩

/-! ### Claim C9 -/

/-- Claim C9: an intent name differing from `"recommendPortfolio"` makes
the dispatcher fail with the unsupported-intent fault for any phase,
producing no dialog response; the name `"recommendPortfolio"` is handled
normally by the portfolio handler. -/
theorem dispatch_unsupported_intent (req : IntentRequest) :
    (req.currentIntent.name ≠ "recommendPortfolio" →
      dispatch req = Except.error
        ("Intent with name " ++ req.currentIntent.name ++ " not supported")) ∧
    (req.currentIntent.name = "recommendPortfolio" →
      dispatch req = recommend_portfolio req) := by
  constructor
  · intro h
    simp [dispatch, h]
  · intro h
    simp [dispatch, h]

/-- Witness for claim C9 (spec scenario F): intent name `"other"` faults. -/
theorem dispatch_unsupported_intent_w :
    dispatch
      { invocationSource := "FulfillmentCodeHook",
        currentIntent :=
          { name := "other",
            slots := { firstName := none, age := none,
                       investmentAmount := none, riskLevel := none } },
        sessionAttributes := [] } =
      Except.error ("Intent with name " ++ "other" ++ " not supported") :=
  (dispatch_unsupported_intent
    { invocationSource := "FulfillmentCodeHook",
      currentIntent :=
        { name := "other",
          slots := { firstName := none, age := none,
                     investmentAmount := none, riskLevel := none } },
      sessionAttributes := [] }).1 (by decide)

/-! ### Claim C10 -/

/-- Claim C10: on the final phase, an absent riskLevel makes the handler
raise (Python calls `.lower()` on `None`) instead of returning any close
response; the `"Invalid Risk Level"` fallback of `get_rec` applies only
when a string value is present. -/
theorem fulfillment_absent_risk_raises (req : IntentRequest)
    (hsrc : req.invocationSource = "FulfillmentCodeHook") :
    ((get_slots req).riskLevel = none →
      recommend_portfolio req =
        Except.error "AttributeError: NoneType object has no attribute lower") ∧
    (∀ rl, (get_slots req).riskLevel = some rl →
      recommend_portfolio req = Except.ok
        (close req.sessionAttributes "Fulfilled"
          { contentType := "PlainText",
            content := "Thank you, " ++ pyFormatSlot (get_slots req).firstName ++
              ", you should allocate your funds like so: " ++ get_rec rl })) := by
  constructor
  · intro h
    simp [recommend_portfolio, hsrc, h]
  · intro rl h
    simp [recommend_portfolio, hsrc, h, close]

/-- Witness for claim C10 at a concrete final-phase request with the
riskLevel slot absent. -/
theorem fulfillment_absent_risk_raises_w :
    recommend_portfolio
      { invocationSource := "FulfillmentCodeHook",
        currentIntent :=
          { name := "recommendPortfolio",
            slots := { firstName := some "Ada", age := some "30",
                       investmentAmount := some "9000", riskLevel := none } },
        sessionAttributes := [("s", "1")] } =
      Except.error "AttributeError: NoneType object has no attribute lower" :=
  (fulfillment_absent_risk_raises
    { invocationSource := "FulfillmentCodeHook",
      currentIntent :=
        { name := "recommendPortfolio",
          slots := { firstName := some "Ada", age := some "30",
                     investmentAmount := some "9000", riskLevel := none } },
      sessionAttributes := [("s", "1")] } rfl).1 rfl

end Challenge15
